import Mathlib

/-!
Shallow embedding of askbot/models/repute.py: the BadgeData, Award and
Repute models, the ReputeManager daily-reputation aggregate query, and the
HTML explanation-snippet renderer.  Timestamps are modelled as integers
(seconds); a date value used as a datetime bound stands for that day's
midnight, and one day is a fixed number of seconds.  Django queryset
filters become list filters, SQL SUM aggregates become Option-valued sums
(none exactly when no row matches), and a Python attribute access on a
null foreign key becomes an Option match returning none.
-/

/-- Seconds in one day: datetime.timedelta(1) added to a date moves its
midnight timestamp forward by this amount. -/
def secondsPerDay : ℤ := 86400

/-- A row of the auth_user table, as far as this file touches it:
primary key and username. -/
structure UserRec where
  id : ℕ
  username : String
deriving DecidableEq, Repr

/-- A thread object; repute.py reads only its title. -/
structure Thread where
  title : String
deriving DecidableEq, Repr

/-- A question (Post) object; repute.py reads its absolute url and its
thread title. -/
structure Question where
  absolute_url : String
  thread : Thread
deriving DecidableEq, Repr

/-- Question.get_absolute_url from the Post model: repute.py only calls
it, so it is the stored url here. -/
def Question.get_absolute_url (q : Question) : String := q.absolute_url

/-- The Repute model: one reputation-ledger entry.  question is nullable
(null=True) and comment is nullable (null=True), so both are Options. -/
structure Repute where
  user : UserRec
  positive : ℤ
  negative : ℤ
  question : Option Question
  reputed_at : ℤ
  reputation_type : ℤ
  reputation : ℤ
  comment : Option String
deriving DecidableEq, Repr

/-- The fixed pair rep_types = (1, -8) from get_reputation_by_upvoted_today. -/
def upvoteRepTypes : List ℤ := [1, -8]

/-- The queryset filter of get_reputation_by_upvoted_today:
reputation_type__in=rep_types, user=user (primary-key comparison), and
reputed_at__range=(today, tomorrow).  Django range is SQL BETWEEN, which
is inclusive at both bounds; today and tomorrow are dates, interpreted as
their midnights. -/
def matchesUpvotedToday (uid : ℕ) (todayMidnight : ℤ) (r : Repute) : Bool :=
  upvoteRepTypes.contains r.reputation_type
    && (r.user.id == uid)
    && (decide (todayMidnight ≤ r.reputed_at)
        && decide (r.reputed_at ≤ todayMidnight + secondsPerDay))

/-- SQL SUM aggregate over the matched rows: NULL (none) exactly when no
row matched, otherwise the sum. -/
def sumAggregate (f : Repute → ℤ) (rows : List Repute) : Option ℤ :=
  match rows with
  | [] => none
  | rows => some ((rows.map f).sum)

/-- ReputeManager.get_reputation_by_upvoted_today.  db is the Repute
table, user is None or a user row, todayMidnight is datetime.date.today()
as a midnight timestamp.  The aggregate dict is always present (the dead
`else: return 0` branch of the source never runs), and each missing sum
(`if pos is None: pos = 0`) is replaced by zero via getD. -/
def get_reputation_by_upvoted_today
    (db : List Repute) (user : Option UserRec) (todayMidnight : ℤ) : ℤ :=
  match user with
  | none => 0
  | some u =>
    let matching := db.filter (matchesUpvotedToday u.id todayMidnight)
    let pos := (sumAggregate Repute.positive matching).getD 0
    let neg := (sumAggregate Repute.negative matching).getD 0
    pos + neg

/-- Python "%s" rendering of a nullable string: None prints as "None". -/
def pyStr (s : Option String) : String :=
  match s with
  | some t => t
  | none => "None"

/-- The moderator branch of get_explanation_snippet: the translated
format string with the comment interpolated. -/
def moderatorSnippet (comment : Option String) : String :=
  "<em>Changed by moderator. Reason:</em> " ++ pyStr comment

/-- The link title used when delta > 0. -/
def addedTitle (points : ℤ) (username questionTitle : String) : String :=
  toString points ++ " points were added for " ++ username
    ++ "\x27s contribution to question " ++ questionTitle

/-- The link title used when delta <= 0. -/
def subtractedTitle (points : ℤ) (username questionTitle : String) : String :=
  toString points ++ " points were subtracted for " ++ username
    ++ "\x27s contribution to question " ++ questionTitle

/-- link_title of get_explanation_snippet: points is abs(delta); the
added wording is chosen exactly when delta > 0, otherwise the subtracted
wording. -/
def linkTitle (r : Repute) (q : Question) : String :=
  let delta := r.positive - r.negative
  if delta > 0 then
    addedTitle |delta| r.user.username q.thread.title
  else
    subtractedTitle |delta| r.user.username q.thread.title

/-- The anchor tag returned by the non-moderator branch. -/
def anchorSnippet (url title questionTitle : String) : String :=
  "<a href=\"" ++ url ++ "\" title=\"" ++ title ++ "\">" ++ questionTitle ++ "</a>"

/-- Repute.get_explanation_snippet.  For reputation_type == 10 it renders
the moderator reason from the comment; otherwise it dereferences
self.question (an AttributeError on a null question is modelled as none)
and renders the anchor to the question. -/
def get_explanation_snippet (r : Repute) : Option String :=
  if r.reputation_type = 10 then
    some (moderatorSnippet r.comment)
  else
    r.question.map (fun q =>
      anchorSnippet (q.get_absolute_url) (linkTitle r q) q.thread.title)

/-- Modelled from the spec: a badge of the external static registry
(askbot.models.badges, not part of this file) — metadata name,
description, css class and a level code;  only these attributes are read
through BadgeData. -/
structure Badge where
  name : String
  description : String
  css_class : String
  level : ℤ
deriving DecidableEq, Repr

/-- Modelled from the spec: const.BRONZE_BADGE, the level code given to
the placeholder badge. -/
def BRONZE_BADGE : ℤ := 3

/-- Modelled from the spec: Badge.get_level_display of the registry badge
class — the display text of the level code. -/
def get_level_display (level : ℤ) : String :=
  if level = 1 then "gold" else if level = 2 then "silver"
  else if level = 3 then "bronze" else ""

/-- Modelled from the spec: badges.get_badge — lookup in the static
registry keyed by slug; a KeyError on a missing key is none here. -/
def get_badge (registry : List (String × Badge)) (slug : String) : Option Badge :=
  (registry.find? (fun p => p.1 == slug)).map (fun p => p.2)

/-- Modelled from the spec: the dummy badge badges.Badge(level =
const.BRONZE_BADGE) returned on a registry miss — default (empty)
metadata except the bronze level. -/
def dummyBadge : Badge :=
  { name := "", description := "", css_class := "", level := BRONZE_BADGE }

/-- The BadgeData model: only slug and awarded_count are database
columns (awarded_to is a relation through Award). -/
structure BadgeData where
  slug : String
  awarded_count : ℕ
deriving DecidableEq, Repr

/-- BadgeData._get_meta_data: look the slug up in the registry, and on a
KeyError return the dummy badge. -/
def BadgeData._get_meta_data (registry : List (String × Badge)) (b : BadgeData) : Badge :=
  match get_badge registry b.slug with
  | some badge => badge
  | none => dummyBadge

/-- BadgeData.is_real_badge: true when the slug is in the registry. -/
def BadgeData.is_real_badge (registry : List (String × Badge)) (b : BadgeData) : Bool :=
  (get_badge registry b.slug).isSome

/-- BadgeData.name property. -/
def BadgeData.name (registry : List (String × Badge)) (b : BadgeData) : String :=
  (BadgeData._get_meta_data registry b).name

/-- BadgeData.description property. -/
def BadgeData.description (registry : List (String × Badge)) (b : BadgeData) : String :=
  (BadgeData._get_meta_data registry b).description

/-- BadgeData.css_class property. -/
def BadgeData.css_class (registry : List (String × Badge)) (b : BadgeData) : String :=
  (BadgeData._get_meta_data registry b).css_class

/-- BadgeData.get_type_display: the level display of the metadata badge. -/
def BadgeData.get_type_display (registry : List (String × Badge)) (b : BadgeData) : String :=
  get_level_display (BadgeData._get_meta_data registry b).level

/-- True when some stored BadgeData already uses this slug. -/
def slugTaken (store : List BadgeData) (slug : String) : Bool :=
  store.any (fun b => b.slug == slug)

/-- The slug column of the store. -/
def badgeSlugs (store : List BadgeData) : List String :=
  store.map BadgeData.slug

/-- The unique=True constraint on BadgeData.slug: all stored slugs are
pairwise distinct. -/
def slugsUnique (store : List BadgeData) : Prop :=
  (badgeSlugs store).Nodup

/-- Modelled from the spec: inserting a BadgeData row — the database
rejects (unique constraint violation) a slug already present. -/
def insertBadge (store : List BadgeData) (b : BadgeData) : Option (List BadgeData) :=
  if slugTaken store b.slug then none else some (store ++ [b])

/-- Modelled from the spec: updating the awarded_count of the row with
the given slug; no slug changes. -/
def updateAwardedCount (store : List BadgeData) (slug : String) (n : ℕ) : List BadgeData :=
  store.map (fun b => if b.slug == slug then { b with awarded_count := n } else b)

/-- Modelled from the spec: renaming a slug — the database rejects a new
slug that is already present. -/
def updateBadgeSlug (store : List BadgeData) (oldSlug newSlug : String) :
    Option (List BadgeData) :=
  if slugTaken store newSlug then none
  else some (store.map (fun b =>
    if b.slug == oldSlug then { b with slug := newSlug } else b))

/-- The Award model: user, badge, generic content object (content type
plus object id), timestamp and notified flag. -/
structure Award where
  user : ℕ
  badge : String
  content_type : String
  object_id : ℕ
  awarded_at : ℤ
  notified : Bool
deriving DecidableEq, Repr

/-- Creation of an Award row: a field given as none takes its declared
default — awarded_at defaults to datetime.datetime.now evaluated at
creation time (the now argument), notified defaults to False. -/
def Award.create (now : ℤ) (user : ℕ) (badge : String)
    (content_type : String) (object_id : ℕ)
    (awarded_at : Option ℤ) (notified : Option Bool) : Award :=
  { user := user, badge := badge, content_type := content_type,
    object_id := object_id,
    awarded_at := awarded_at.getD now,
    notified := notified.getD false }

/-- A sample user for concrete evaluations. -/
def sampleUser : UserRec := { id := 7, username := "bob" }

/-- A sample matching Repute row: type 1, timestamped inside the day. -/
def sampleRepute : Repute :=
  { user := sampleUser, positive := 10, negative := 0, question := none,
    reputed_at := 100, reputation_type := 1, reputation := 1, comment := none }

/-- A Repute row timestamped exactly at tomorrow's midnight. -/
def reputeAtTomorrowMidnight : Repute :=
  { user := { id := 1, username := "alice" }, positive := 10, negative := 0,
    question := none, reputed_at := secondsPerDay, reputation_type := 1,
    reputation := 1, comment := none }

/-- A moderator-assigned Repute row: type 10, comment set, no question. -/
def moderatorRepute : Repute :=
  { user := { id := 2, username := "carol" }, positive := 0, negative := 0,
    question := none, reputed_at := 0, reputation_type := 10, reputation := 1,
    comment := some "spam cleanup" }

/-- A sample question for concrete evaluations. -/
def sampleQuestion : Question :=
  { absolute_url := "/question/5/", thread := { title := "How to parse dates" } }

/-- A normal Repute row: type 1, question set. -/
def linkRepute : Repute :=
  { user := { id := 3, username := "dave" }, positive := 10, negative := 0,
    question := some sampleQuestion, reputed_at := 0, reputation_type := 1,
    reputation := 11, comment := none }

/-- A sample registry badge for concrete evaluations. -/
def goldBadge : Badge :=
  { name := "Nice Answer", description := "Answer voted up 10 times",
    css_class := "gold", level := 1 }

/-- A one-entry registry. -/
def sampleRegistry : List (String × Badge) := [("nice-answer", goldBadge)]

/-- A BadgeData row whose slug is in the registry. -/
def knownBadgeData : BadgeData := { slug := "nice-answer", awarded_count := 2 }

/-- A BadgeData row whose slug is absent from the registry. -/
def staleBadgeData : BadgeData := { slug := "forgotten", awarded_count := 1 }

/-- A two-row BadgeData store with distinct slugs. -/
def demoStore : List BadgeData :=
  [{ slug := "a", awarded_count := 0 }, { slug := "b", awarded_count := 3 }]

/-- A BadgeData row with a fresh slug. -/
def demoBadge : BadgeData := { slug := "c", awarded_count := 0 }

lemma badgeSlugs_updateAwardedCount (store : List BadgeData) (slug : String) (n : ℕ) :
    badgeSlugs (updateAwardedCount store slug n) = badgeSlugs store := by
  simp only [badgeSlugs, updateAwardedCount, List.map_map]
  apply List.map_congr_left
  intro b _
  by_cases h : b.slug = slug <;> simp [h]

lemma badgeSlugs_rename (store : List BadgeData) (oldSlug newSlug : String) :
    badgeSlugs (store.map (fun b =>
        if b.slug == oldSlug then { b with slug := newSlug } else b)) =
      (badgeSlugs store).map (fun s => if s == oldSlug then newSlug else s) := by
  simp only [badgeSlugs, List.map_map]
  apply List.map_congr_left
  intro b _
  by_cases h : b.slug = oldSlug <;> simp [h]

lemma nodup_rename (l : List String) (oldS newS : String)
    (hnew : newS ∉ l) (hl : l.Nodup) :
    (l.map (fun s => if s == oldS then newS else s)).Nodup := by
  refine hl.map_on ?_
  intro x hx y hy hxy
  by_cases hxo : x = oldS <;> by_cases hyo : y = oldS <;> simp [hxo, hyo] at hxy
  · rw [hxo, hyo]
  · exact absurd (show newS ∈ l by rw [hxy]; exact hy) hnew
  · exact absurd (show newS ∈ l by rw [← hxy]; exact hx) hnew
  · exact hxy

lemma not_slugTaken_notMem (store : List BadgeData) (s : String)
    (h : slugTaken store s = false) : s ∉ badgeSlugs store := by
  intro hmem
  obtain ⟨c, hc, hceq⟩ := List.mem_map.mp hmem
  have : store.any (fun b => b.slug == s) = true :=
    List.any_eq_true.mpr ⟨c, hc, by simp [hceq]⟩
  rw [slugTaken] at h
  rw [h] at this
  exact Bool.false_ne_true this

/-- C1: for a non-None user, get_reputation_by_upvoted_today returns the
sum of the positive deltas plus the sum of the negative deltas over the
Repute rows matched by the query filter (reputation_type in (1, -8),
this user, reputed_at in the queried day range), each missing aggregate
sum (none, when no row matches) being treated as zero, so the result is
0 when no row matches. -/
theorem get_reputation_by_upvoted_today_sums :
    ∀ (db : List Repute) (u : UserRec) (t : ℤ),
      get_reputation_by_upvoted_today db (some u) t =
        ((db.filter (matchesUpvotedToday u.id t)).map Repute.positive).sum
          + ((db.filter (matchesUpvotedToday u.id t)).map Repute.negative).sum ∧
      (db.filter (matchesUpvotedToday u.id t) = [] →
        get_reputation_by_upvoted_today db (some u) t = 0) := by
  intro db u t
  constructor
  · cases h : db.filter (matchesUpvotedToday u.id t) with
    | nil => simp [get_reputation_by_upvoted_today, sumAggregate, h]
    | cons x xs => simp [get_reputation_by_upvoted_today, sumAggregate, h]
  · intro h
    simp [get_reputation_by_upvoted_today, sumAggregate, h]

/-- C1 witness: the sum identity at a one-row table, and the zero result
at an empty table. -/
theorem get_reputation_by_upvoted_today_sums_witness :
    get_reputation_by_upvoted_today [sampleRepute] (some sampleUser) 0 =
      (([sampleRepute].filter (matchesUpvotedToday sampleUser.id 0)).map Repute.positive).sum
        + (([sampleRepute].filter (matchesUpvotedToday sampleUser.id 0)).map Repute.negative).sum ∧
    get_reputation_by_upvoted_today [] (some sampleUser) 0 = 0 :=
  ⟨(get_reputation_by_upvoted_today_sums [sampleRepute] sampleUser 0).1,
   (get_reputation_by_upvoted_today_sums [] sampleUser 0).2 rfl⟩

/-- C2 counterexample: a Repute row timestamped exactly at tomorrow's
midnight contributes to the result (the query range is an inclusive SQL
BETWEEN), although that timestamp does not lie strictly before
tomorrow's midnight as the claim requires. -/
theorem upvotedToday_range_counterexample :
    get_reputation_by_upvoted_today [reputeAtTomorrowMidnight]
        (some { id := 1, username := "alice" }) 0 = 10 ∧
    ¬ (reputeAtTomorrowMidnight.reputed_at < 0 + secondsPerDay) := by
  constructor
  · decide
  · decide

/-- C2 amended: a Repute row is kept by the day filter of
get_reputation_by_upvoted_today exactly when its reputation_type is 1 or
-8, its user is the queried user, and its reputed_at lies in the CLOSED
interval from today's midnight to tomorrow's midnight, both endpoints
included. -/
theorem upvotedToday_range_inclusive :
    ∀ (db : List Repute) (u : UserRec) (t : ℤ) (r : Repute), r ∈ db →
      (r ∈ db.filter (matchesUpvotedToday u.id t) ↔
        ((r.reputation_type = 1 ∨ r.reputation_type = -8) ∧ r.user.id = u.id ∧
          (t ≤ r.reputed_at ∧ r.reputed_at ≤ t + secondsPerDay))) := by
  intro db u t r hr
  simp [List.mem_filter, hr, matchesUpvotedToday, upvoteRepTypes, and_assoc]

/-- C2 amended witness: the filter keeps the row timestamped exactly at
tomorrow's midnight. -/
theorem upvotedToday_range_inclusive_witness :
    reputeAtTomorrowMidnight ∈
        [reputeAtTomorrowMidnight].filter (matchesUpvotedToday 1 0) ↔
      ((reputeAtTomorrowMidnight.reputation_type = 1 ∨
          reputeAtTomorrowMidnight.reputation_type = -8) ∧
        reputeAtTomorrowMidnight.user.id = 1 ∧
        (0 ≤ reputeAtTomorrowMidnight.reputed_at ∧
          reputeAtTomorrowMidnight.reputed_at ≤ 0 + secondsPerDay)) :=
  upvotedToday_range_inclusive [reputeAtTomorrowMidnight]
    { id := 1, username := "alice" } 0 reputeAtTomorrowMidnight (by simp)

/-- C8: a None user is accepted and yields 0, for every state of the
Repute table (the result does not depend on the store, so no query is
consulted). -/
theorem get_reputation_by_upvoted_today_none :
    ∀ (db : List Repute) (t : ℤ), get_reputation_by_upvoted_today db none t = 0 := by
  intro db t
  rfl

/-- C3: get_explanation_snippet selects between its two kinds of output
on the reputation-type code alone: type 10 yields the moderator-reason
text built from the comment field, and every other type yields the HTML
anchor built from the question (none exactly on the null-question
dereference), with no further branching choosing between the two kinds. -/
theorem get_explanation_snippet_branches :
    ∀ r : Repute,
      (r.reputation_type = 10 →
        get_explanation_snippet r = some (moderatorSnippet r.comment)) ∧
      (r.reputation_type ≠ 10 →
        get_explanation_snippet r = r.question.map (fun q =>
          anchorSnippet q.get_absolute_url (linkTitle r q) q.thread.title)) := by
  intro r
  constructor
  · intro h
    simp [get_explanation_snippet, h]
  · intro h
    simp [get_explanation_snippet, h]

/-- C3 witness: both branches at concrete rows. -/
theorem get_explanation_snippet_branches_witness :
    get_explanation_snippet moderatorRepute =
      some (moderatorSnippet moderatorRepute.comment) ∧
    get_explanation_snippet linkRepute = linkRepute.question.map (fun q =>
      anchorSnippet q.get_absolute_url (linkTitle linkRepute q) q.thread.title) :=
  ⟨(get_explanation_snippet_branches moderatorRepute).1 rfl,
   (get_explanation_snippet_branches linkRepute).2 (by decide)⟩

/-- C4: under the data invariant (type 10 implies comment populated,
other types imply question populated), get_explanation_snippet is total;
for type 10 the result does not depend on the question field, and for
other types it does not depend on the comment field. -/
theorem get_explanation_snippet_safe :
    ∀ r : Repute,
      (r.reputation_type = 10 → r.comment.isSome) →
      (r.reputation_type ≠ 10 → r.question.isSome) →
      (get_explanation_snippet r).isSome = true ∧
      (r.reputation_type = 10 → ∀ q : Option Question,
        get_explanation_snippet { r with question := q } =
          get_explanation_snippet r) ∧
      (r.reputation_type ≠ 10 → ∀ c : Option String,
        get_explanation_snippet { r with comment := c } =
          get_explanation_snippet r) := by
  intro r hcom hq
  by_cases h : r.reputation_type = 10
  · refine ⟨?_, ?_, ?_⟩
    · simp [get_explanation_snippet, h]
    · intro _ q
      simp [get_explanation_snippet, h]
    · intro hne
      exact absurd h hne
  · obtain ⟨qq, hqq⟩ := Option.isSome_iff_exists.mp (hq h)
    refine ⟨?_, ?_, ?_⟩
    · simp [get_explanation_snippet, h, hqq]
    · intro h10
      exact absurd h10 h
    · intro _ c
      simp [get_explanation_snippet, linkTitle, h]

/-- C4 witness: totality at a concrete moderator row (question absent)
and at a concrete ordinary row (question present). -/
theorem get_explanation_snippet_safe_witness :
    (get_explanation_snippet moderatorRepute).isSome = true ∧
    (get_explanation_snippet linkRepute).isSome = true :=
  ⟨(get_explanation_snippet_safe moderatorRepute (fun _ => rfl)
      (fun h => absurd rfl h)).1,
   (get_explanation_snippet_safe linkRepute (fun h => absurd h (by decide))
      (fun _ => rfl)).1⟩

/-- C7: for a non-moderator row with a populated question, the snippet is
the anchor whose title shows abs(positive - negative) points; the added
wording is used exactly when the delta is positive, and a zero delta uses
the subtracted wording with 0 points. -/
theorem link_points_and_wording :
    ∀ (r : Repute) (q : Question), r.reputation_type ≠ 10 → r.question = some q →
      get_explanation_snippet r =
        some (anchorSnippet q.get_absolute_url (linkTitle r q) q.thread.title) ∧
      (0 < r.positive - r.negative →
        linkTitle r q =
          addedTitle |r.positive - r.negative| r.user.username q.thread.title) ∧
      (r.positive - r.negative ≤ 0 →
        linkTitle r q =
          subtractedTitle |r.positive - r.negative| r.user.username q.thread.title) ∧
      (r.positive - r.negative = 0 →
        linkTitle r q = subtractedTitle 0 r.user.username q.thread.title) := by
  intro r q h10 hq
  refine ⟨?_, ?_, ?_, ?_⟩
  · simp [get_explanation_snippet, h10, hq]
  · intro hpos
    simp [linkTitle, hpos]
  · intro hle
    simp [linkTitle, not_lt.mpr hle]
  · intro heq
    simp [linkTitle, heq]

/-- C7 witness: the anchor form and the added wording at a concrete row
with delta 10. -/
theorem link_points_and_wording_witness :
    get_explanation_snippet linkRepute =
      some (anchorSnippet sampleQuestion.get_absolute_url
        (linkTitle linkRepute sampleQuestion) sampleQuestion.thread.title) ∧
    linkTitle linkRepute sampleQuestion =
      addedTitle |linkRepute.positive - linkRepute.negative|
        linkRepute.user.username sampleQuestion.thread.title :=
  ⟨(link_points_and_wording linkRepute sampleQuestion (by decide) rfl).1,
   (link_points_and_wording linkRepute sampleQuestion (by decide) rfl).2.1 (by decide)⟩

/-- C5: metadata accessors never fail: on a registry miss the KeyError is
caught and the placeholder badge's metadata is returned, and on a hit the
registry badge's metadata is returned. -/
theorem badge_metadata_fallback :
    ∀ (registry : List (String × Badge)) (b : BadgeData),
      (get_badge registry b.slug = none →
        BadgeData.name registry b = dummyBadge.name ∧
        BadgeData.description registry b = dummyBadge.description ∧
        BadgeData.css_class registry b = dummyBadge.css_class ∧
        BadgeData.get_type_display registry b = get_level_display dummyBadge.level) ∧
      (∀ β : Badge, get_badge registry b.slug = some β →
        BadgeData.name registry b = β.name ∧
        BadgeData.description registry b = β.description ∧
        BadgeData.css_class registry b = β.css_class ∧
        BadgeData.get_type_display registry b = get_level_display β.level) := by
  intro registry b
  constructor
  · intro h
    simp [BadgeData.name, BadgeData.description, BadgeData.css_class,
      BadgeData.get_type_display, BadgeData._get_meta_data, h]
  · intro β h
    simp [BadgeData.name, BadgeData.description, BadgeData.css_class,
      BadgeData.get_type_display, BadgeData._get_meta_data, h]

/-- C5 witness: the fallback name on an unknown slug, and the registry
name on a known slug. -/
theorem badge_metadata_fallback_witness :
    BadgeData.name sampleRegistry staleBadgeData = dummyBadge.name ∧
    BadgeData.name sampleRegistry knownBadgeData = goldBadge.name :=
  ⟨((badge_metadata_fallback sampleRegistry staleBadgeData).1 (by decide)).1,
   ((badge_metadata_fallback sampleRegistry knownBadgeData).2 goldBadge (by decide)).1⟩

/-- C6: slug uniqueness is an invariant of the BadgeData store: it is
preserved by a successful insert, by an awarded_count update, and by a
successful slug rename. -/
theorem badge_slug_unique_invariant :
    ∀ (store : List BadgeData) (b : BadgeData) (slug : String) (n : ℕ)
      (oldSlug newSlug : String),
      slugsUnique store →
      (∀ store', insertBadge store b = some store' → slugsUnique store') ∧
      slugsUnique (updateAwardedCount store slug n) ∧
      (∀ store', updateBadgeSlug store oldSlug newSlug = some store' →
        slugsUnique store') := by
  intro store b slug n oldSlug newSlug hstore
  refine ⟨?_, ?_, ?_⟩
  · intro store' hins
    rw [insertBadge] at hins
    by_cases hT : slugTaken store b.slug
    · rw [if_pos hT] at hins
      exact absurd hins (by simp)
    · rw [if_neg hT] at hins
      obtain rfl : store ++ [b] = store' := Option.some.inj hins
      have hnotin : b.slug ∉ badgeSlugs store :=
        not_slugTaken_notMem store b.slug (Bool.not_eq_true _ ▸ hT)
      rw [slugsUnique, badgeSlugs, List.map_append]
      refine List.Nodup.append hstore (by simp) ?_
      intro s hs hs'
      simp only [List.map_cons, List.map_nil, List.mem_singleton] at hs'
      rw [hs'] at hs
      exact hnotin hs
  · rw [slugsUnique, badgeSlugs_updateAwardedCount]
    exact hstore
  · intro store' hren
    rw [updateBadgeSlug] at hren
    by_cases hT : slugTaken store newSlug
    · rw [if_pos hT] at hren
      exact absurd hren (by simp)
    · rw [if_neg hT] at hren
      obtain rfl := Option.some.inj hren
      have hnotin : newSlug ∉ badgeSlugs store :=
        not_slugTaken_notMem store newSlug (Bool.not_eq_true _ ▸ hT)
      rw [slugsUnique, badgeSlugs_rename]
      exact nodup_rename (badgeSlugs store) oldSlug newSlug hnotin hstore

/-- C6 witness: uniqueness after a concrete insert, count update and
rename on a two-row store. -/
theorem badge_slug_unique_invariant_witness :
    slugsUnique (demoStore ++ [demoBadge]) ∧
    slugsUnique (updateAwardedCount demoStore "a" 5) ∧
    slugsUnique (demoStore.map (fun b =>
      if b.slug == "a" then { b with slug := "z" } else b)) :=
  ⟨(badge_slug_unique_invariant demoStore demoBadge "a" 5 "a" "z"
      (by rw [slugsUnique]; decide)).1 (demoStore ++ [demoBadge]) (by decide),
   (badge_slug_unique_invariant demoStore demoBadge "a" 5 "a" "z"
      (by rw [slugsUnique]; decide)).2.1,
   (badge_slug_unique_invariant demoStore demoBadge "a" 5 "a" "z"
      (by rw [slugsUnique]; decide)).2.2 (demoStore.map (fun b =>
        if b.slug == "a" then { b with slug := "z" } else b)) (by decide)⟩

/-- C9: an Award created without explicit awarded_at and notified gets
notified = False and awarded_at = the creation time. -/
theorem award_defaults :
    ∀ (now : ℤ) (u : ℕ) (bd ct : String) (oid : ℕ),
      (Award.create now u bd ct oid none none).notified = false ∧
      (Award.create now u bd ct oid none none).awarded_at = now := by
  intro now u bd ct oid
  exact ⟨rfl, rfl⟩
